import Mathlib

/-!
Shallow embedding of `src/min_rss_gen/generator.py`, an RSS 2.0 feed
builder on top of `xml.etree.ElementTree`, together with theorems that
settle the frozen claims about it.

Modelling conventions:

* `Element` mirrors `xml.etree.ElementTree.Element`: a tag, an attribute
  dictionary kept in insertion order, an optional text value and a list of
  children.  The Python code mutates elements in place (`SubElement`,
  `extend`, attribute assignment); the model passes the updated element
  along explicitly.
* Attribute values and text are `PyVal`s, not bare strings, because the
  source stores non-string Python objects in them: `gen_guid` passes the
  raw `bool` through as an attribute value, and `gen_image` places `int`
  width/height values in its `kwargs` dictionary.
* Fallible computations return `Except PyError α`.  `validate_either`
  raises `ValueError` (the spec calls it `ValidationError`); CPython's
  argument binding raises `TypeError`; sequence unpacking raises
  `ValueError`.
* `gen_image`, `gen_text_input`, `gen_item` and `gen_rss` all build
  `functools.partial(add_subelement_with_text, etree=etree, root=<elem>)`
  and call it with two positional arguments.  `add_subelement_with_text`'s
  parameters are `parent`, `child_tag`, `text`, `etree` — there is no
  parameter named `root` and no `**kwargs` — so under CPython's binding
  rules every such call raises `TypeError` before the callee's body runs.
  The model keeps that binding check explicit (`call_kw_with_root`), with
  the would-be body on the (unreachable) accepting branch.
-/

namespace MinRss

/-- Python runtime values that occur as attribute values or element text in
this module: strings, integers (gen_image's width/height before the loop),
and raw booleans (gen_guid's isPermaLink). -/
inductive PyVal where
  | str (s : String)
  | int (n : Int)
  | bool (b : Bool)
deriving Repr, DecidableEq

/-- Model of `xml.etree.ElementTree.Element`: tag, attributes in insertion
order, optional text, children in document order. -/
inductive Element : Type where
  | mk (tag : String) (attrib : List (String × PyVal)) (text : Option PyVal)
      (children : List Element)

/-- The element's tag. -/
def Element.tag : Element → String
  | .mk t _ _ _ => t

/-- The element's attribute dictionary, in insertion order. -/
def Element.attrib : Element → List (String × PyVal)
  | .mk _ a _ _ => a

/-- The element's `.text` value (`None` right after `etree.Element(tag)`). -/
def Element.text : Element → Option PyVal
  | .mk _ _ x _ => x

/-- The element's children, in document order. -/
def Element.children : Element → List Element
  | .mk _ _ _ c => c

/-- `etree.Element(tag)`: fresh element, no attributes, text `None`, no
children. -/
def newElement (tag : String) : Element :=
  .mk tag [] Option.none []

/-- In-place `parent.append(child)` (what `etree.SubElement` does to the
parent), modelled as returning the updated parent. -/
def appendChild (parent : Element) (child : Element) : Element :=
  match parent with
  | .mk t a x c => .mk t a x (c ++ [child])

/-- In-place `parent.extend(children)`, modelled as returning the updated
parent. -/
def extendChildren (parent : Element) (cs : List Element) : Element :=
  match parent with
  | .mk t a x c => .mk t a x (c ++ cs)

/-- Python exceptions raised in this module.  The spec's `ValidationError`
is the `ValueError` raised by `validate_either`; `TypeError` comes from
CPython argument binding; unpacking a string of the wrong length in a
`for a, b in ...` loop raises `ValueError` as well. -/
inductive PyError where
  | valueError (msg : String)
  | typeError (msg : String)
deriving Repr, DecidableEq

/-- `add_subelement_with_text(parent, child_tag, text)`: creates a
`SubElement` of `parent` with tag `child_tag` and sets its text.  The
Python function mutates `parent` and returns the new child; the model
returns the updated parent, the only effect its callers use. -/
def add_subelement_with_text (parent : Element) (child_tag : String)
    (text : PyVal) : Element :=
  appendChild parent (.mk child_tag [] (some text) [])

/-- Parameter names of `add_subelement_with_text`, in declaration order.
Its first parameter is named `parent`; there is no `root`. -/
def add_subelement_with_text_params : List String :=
  ["parent", "child_tag", "text", "etree"]

/-- Keyword names bound by the `functools.partial` that `gen_image`,
`gen_text_input`, `gen_item` and `gen_rss` each build around
`add_subelement_with_text`: `etree=etree, root=<element>`. -/
def bound_kwnames : List String := ["etree", "root"]

/-- The keyword names of the partial that CPython rejects when the partial
is applied: names that are not parameters of `add_subelement_with_text`
(which takes no `**kwargs`). -/
def unexpected_kwnames : List String :=
  bound_kwnames.filter (fun k => !(add_subelement_with_text_params.contains k))

/-- One application of the `root=` partial to two positional arguments.
CPython binds keywords after positionals and raises
`TypeError: ... got an unexpected keyword argument ...` when a keyword
name is not a parameter of the callee.  `root` is such a name, so every
call fails before `add_subelement_with_text`'s body runs; the accepting
branch (reachable only if every bound keyword were a real parameter, in
which case `root` would denote the target element) records the append the
body would then perform. -/
def call_kw_with_root (root : Element) (child_tag : String) (text : PyVal) :
    Except PyError Element :=
  match unexpected_kwnames with
  | [] => .ok (add_subelement_with_text root child_tag text)
  | k :: _ =>
      .error (.typeError
        ("add_subelement_with_text() got an unexpected keyword argument " ++ k))

/-- The loop `for child_tag, text in kwargs.items(): add_to(child_tag, text)`
where `add_to` is the `root=` partial: stops at the first raised error. -/
def add_all_kw_with_root (e : Element) :
    List (String × PyVal) → Except PyError Element
  | [] => .ok e
  | (tag, v) :: rest => do
      let e2 ← call_kw_with_root e tag v
      add_all_kw_with_root e2 rest

/-- `MAX_IMAGE_WIDTH` from the source. -/
def MAX_IMAGE_WIDTH : Int := 144

/-- `MAX_IMAGE_HEIGHT` from the source. -/
def MAX_IMAGE_HEIGHT : Int := 400

/-- `gen_image(url, title, link, width=88, height=31)`.  The Python
defaults are the integers 88 and 31, not `None`; a caller omitting
width/height is modelled by passing `some 88` / `some 31`, and `none`
models an explicit `width=None` / `height=None`.  Non-`None` width/height
are clamped with `min` against the maxima and added to `kwargs`; every
`(child_tag, text)` pair of `kwargs` is then added through the `root=`
partial. -/
def gen_image (url title link : String) (width height : Option Int) :
    Except PyError Element :=
  let image := newElement "image"
  let kwargs : List (String × PyVal) :=
    [("url", .str url), ("title", .str title), ("link", .str link)]
  let kwargs := match width with
    | some w => kwargs ++ [("width", .int (min w MAX_IMAGE_WIDTH))]
    | Option.none => kwargs
  let kwargs := match height with
    | some h => kwargs ++ [("height", .int (min h MAX_IMAGE_HEIGHT))]
    | Option.none => kwargs
  add_all_kw_with_root image kwargs

/-- `gen_text_input(title, description, name, link)`: creates a
`textInput` element, then adds title, description, name, link through the
`root=` partial, in that order. -/
def gen_text_input (title description name link : String) :
    Except PyError Element := do
  let text_input := newElement "textInput"
  let t1 ← call_kw_with_root text_input "title" (.str title)
  let t2 ← call_kw_with_root t1 "description" (.str description)
  let t3 ← call_kw_with_root t2 "name" (.str name)
  let t4 ← call_kw_with_root t3 "link" (.str link)
  .ok t4

/-- `gen_category(category, domain=None)`: creates a `category` element,
sets the `domain` attribute when supplied, and sets the text to
`category`.  The source performs no validation and has no raise path, so
the model is total. -/
def gen_category (category : String) (domain : Option String) : Element :=
  let attrib : List (String × PyVal) := match domain with
    | some d => [("domain", PyVal.str d)]
    | Option.none => []
  Element.mk "category" attrib (some (PyVal.str category)) []

/-- `validate_either(*args, msg=...)`: raises `ValueError(msg)` when every
argument is `None`. -/
def validate_either (args : List (Option PyVal)) (msg : String) :
    Except PyError Unit :=
  if args.all Option.isNone then .error (.valueError msg) else .ok ()

/-- The polymorphic `category` argument of `gen_item`: either a plain
string or an iterable of pre-built category elements. -/
inductive CategoryArg where
  | str (s : String)
  | elems (es : List Element)

/-- `[("tag", value)]` when the optional scalar is present, `[]` when it is
`None` — one entry of the `args` dictionary `gen_item`/`gen_rss` build
from their non-`None` locals. -/
def optEntry (tag : String) : Option String → List (String × PyVal)
  | some s => [(tag, .str s)]
  | Option.none => []

/-- `gen_item(title, link, description, author, category, comments,
enclosure, guid, pubDate, source)`.  Steps, as in the source:
`validate_either(title, description, msg=...)`; build `args` from the
non-`None` locals in parameter order; create the `item` element; if
`category` is a non-string, extend `item` with it and drop it from
`args`; extend `item` with the non-`None` ones among enclosure, guid,
source (popped from `args`); finally add every remaining `(tag, value)`
of `args` through the `root=` partial. -/
def gen_item (title link description author : Option String)
    (category : Option CategoryArg) (comments : Option String)
    (enclosure : Option Element) (guid : Option Element)
    (pubDate : Option String) (source : Option Element) :
    Except PyError Element := do
  let _ ← validate_either [title.map .str, description.map .str]
      "Either title or description must be set."
  let item := newElement "item"
  let item := match category with
    | some (.elems es) => extendChildren item es
    | _ => item
  let item := extendChildren item ([enclosure, guid, source].filterMap id)
  let scalars : List (String × PyVal) :=
    optEntry "title" title ++ optEntry "link" link ++
    optEntry "description" description ++ optEntry "author" author ++
    (match category with
      | some (.str s) => [("category", PyVal.str s)]
      | _ => []) ++
    optEntry "comments" comments ++ optEntry "pubDate" pubDate
  add_all_kw_with_root item scalars

/-- `gen_guid(guid, isPermaLink=True)`: the source calls
`etree.Element(guid, isPermaLink=isPermaLink)`, so the guid value becomes
the element's TAG (not the tag `"guid"`) and the attribute value is the
raw Python bool, not a string.  The Python default for `isPermaLink` is
`True`. -/
def gen_guid (guid : String) (isPermaLink : Bool) : Element :=
  .mk guid [("isPermaLink", .bool isPermaLink)] Option.none []

/-- `gen_enclosure(url, length, type)`:
`etree.Element("enclosure", url=url, length=str(length), type=type)` —
attributes in keyword order, the integer length stringified with `str`,
no text, no children. -/
def gen_enclosure (url : String) (length : Int) (type : String) : Element :=
  .mk "enclosure"
    [("url", .str url), ("length", .str (toString length)), ("type", .str type)]
    Option.none []

/-- `gen_source(text, url)`: an element tagged `source` with a `url`
attribute and the display text as its text. -/
def gen_source (text : String) (url : String) : Element :=
  .mk "source" [("url", .str url)] (some (.str text)) []

/-- `gen_cloud(domain, port, path, registerProcedure, protocol)`: a
`cloud` element whose five attributes are set in keyword order, with the
port stringified. -/
def gen_cloud (domain : String) (port : Int) (path : String)
    (registerProcedure : String) (protocol : String) : Element :=
  .mk "cloud"
    [("domain", .str domain), ("port", .str (toString port)),
     ("path", .str path), ("registerProcedure", .str registerProcedure),
     ("protocol", .str protocol)]
    Option.none []

/-- Unpacking one dictionary KEY in `for child_tag, text in args:` — the
source iterates the dictionary itself, not `args.items()`, so each
iteration unpacks a key string into two targets: `ValueError` unless the
key has exactly two characters. -/
def unpackKey2 (k : String) : Except PyError (String × String) :=
  match k.data with
  | [a, b] => .ok (String.mk [a], String.mk [b])
  | [] => .error (.valueError "not enough values to unpack (expected 2, got 0)")
  | [_] => .error (.valueError "not enough values to unpack (expected 2, got 1)")
  | _ => .error (.valueError "too many values to unpack (expected 2)")

/-- The `gen_rss` loop `for child_tag, text in args:` over the KEYS of the
remaining `args` dictionary: each key is unpacked into two names (raising
`ValueError` unless it has exactly two characters), after which the
`root=` partial would be called on the two pieces. -/
def gen_rss_loop (channel : Element) : List String → Except PyError Element
  | [] => .ok channel
  | k :: rest => do
      let ct ← unpackKey2 k
      let channel2 ← call_kw_with_root channel ct.1 (.str ct.2)
      gen_rss_loop channel2 rest

/-- `[tag]` when the optional field is present, `[]` otherwise — one key
of `gen_rss`'s `args` dictionary. -/
def keyIf (tag : String) (present : Bool) : List String :=
  if present then [tag] else []

/-- `gen_rss(title, link, description, language, copyright,
managingEditor, webMaster, pubDate, lastBuildDate, category, generator,
docs, cloud, ttl, image, textInput, skipHours, skipDays, items)`.
The three required fields have no Python default but can be passed
`None`; the source performs no validation of them.  Steps, as in the
source: stringify `ttl` when present; build `args` from the non-`None`
locals in parameter order, popping `etree`, `items`, `cloud`,
`textInput`, `image`; create `rss` with `version="2.0"` and its sole
`channel` child; extend `channel` with the non-`None` ones among cloud,
textInput, image; run the key-unpacking loop over the remaining `args`
KEYS; extend `channel` with `items` when present; return `rss`.  (The
model attaches the finished channel to `rss` at the end; the source
attaches it up front and mutates it, with the same resulting tree.) -/
def gen_rss (title link description : Option String)
    (language copyright managingEditor webMaster pubDate lastBuildDate
     category generator docs : Option String)
    (cloud : Option Element) (ttl : Option Int) (image : Option Element)
    (textInput : Option Element) (skipHours skipDays : Option String)
    (items : Option (List Element)) : Except PyError Element :=
  let argKeys : List String :=
    keyIf "title" title.isSome ++ keyIf "link" link.isSome ++
    keyIf "description" description.isSome ++
    keyIf "language" language.isSome ++ keyIf "copyright" copyright.isSome ++
    keyIf "managingEditor" managingEditor.isSome ++
    keyIf "webMaster" webMaster.isSome ++ keyIf "pubDate" pubDate.isSome ++
    keyIf "lastBuildDate" lastBuildDate.isSome ++
    keyIf "category" category.isSome ++ keyIf "generator" generator.isSome ++
    keyIf "docs" docs.isSome ++ keyIf "ttl" ttl.isSome ++
    keyIf "skipHours" skipHours.isSome ++ keyIf "skipDays" skipDays.isSome
  let channel := newElement "channel"
  let channel := extendChildren channel ([cloud, textInput, image].filterMap id)
  match gen_rss_loop channel argKeys with
  | .error e => .error e
  | .ok channel2 =>
      let channel3 := match items with
        | some is => extendChildren channel2 is
        | Option.none => channel2
      .ok (Element.mk "rss" [("version", .str "2.0")] Option.none [channel3])

/-! ## Claim theorems -/

/-- The TypeError message CPython produces when the `root=` partial around
`add_subelement_with_text` is applied (modulo CPython's quoting of the
keyword name). -/
def rootKwError : PyError :=
  .typeError "add_subelement_with_text() got an unexpected keyword argument root"

/-- Claim C1.  The claim says gen_item raises ValidationError iff both
title and description are null and otherwise returns an ItemElement.  The
first half holds: with both null, `validate_either` raises
ValueError("Either title or description must be set.").  The second half
fails: with title set (the simplest validation-passing input), the loop
over the remaining scalars calls the `root=` partial and raises TypeError
— gen_item never returns an ItemElement on any input. -/
theorem C1_gen_item_validates_but_never_returns :
    gen_item Option.none Option.none Option.none Option.none Option.none
      Option.none Option.none Option.none Option.none Option.none =
      .error (.valueError "Either title or description must be set.")
    ∧ gen_item (some "t") Option.none Option.none Option.none Option.none
      Option.none Option.none Option.none Option.none Option.none =
      .error rootKwError :=
  ⟨rfl, rfl⟩

/-- Claim C2.  gen_rss(title="T", link="L", description="D") does not
return an rss/channel tree: `for child_tag, text in args:` iterates the
KEYS of the args dictionary, and unpacking the first key "title" into two
names raises ValueError("too many values to unpack (expected 2)"). -/
theorem C2_gen_rss_minimal_call_crashes :
    gen_rss (some "T") (some "L") (some "D") Option.none Option.none
      Option.none Option.none Option.none Option.none Option.none Option.none
      Option.none Option.none Option.none Option.none Option.none Option.none
      Option.none Option.none =
      .error (.valueError "too many values to unpack (expected 2)") :=
  rfl

/-- Claim C3.  gen_image never returns an element: kwargs always contains
url, title and link, so the loop always applies the `root=` partial,
which raises TypeError.  This holds for an over-limit width of 200 (the
claim expects a width child of 144), for an in-range width of 50, and for
the Python default call gen_image(url, title, link), i.e. width=88,
height=31 — so no width/height children (and no element at all) are ever
produced. -/
theorem C3_gen_image_always_crashes :
    gen_image "u" "t" "l" (some 200) (some 31) = .error rootKwError
    ∧ gen_image "u" "t" "l" (some 50) (some 31) = .error rootKwError
    ∧ gen_image "u" "t" "l" (some 88) (some 31) = .error rootKwError :=
  ⟨rfl, rfl, rfl⟩

/-- Claim C4.  For every title, description, name and link,
gen_text_input raises TypeError and never returns a TextInputElement: its
very first call through the partial binding the keyword `root` — which is
not a parameter of add_subelement_with_text, whose first parameter is
named `parent` — is rejected by CPython argument binding. -/
theorem C4_gen_text_input_always_raises (title description name link : String) :
    gen_text_input title description name link = .error rootKwError :=
  rfl

/-- Pre-built category elements fed to gen_item in claim C5's scenario. -/
def catA : Element := gen_category "a" Option.none

/-- Second pre-built category element for claim C5's scenario. -/
def catB : Element := gen_category "b" Option.none

/-- Claim C5.  With the precondition satisfied (title set), gen_item still
never returns an ItemElement, neither for a collection of pre-built
category elements nor for a plain string category: after extending the
item with the categories, the scalar loop applies the `root=` partial and
raises TypeError. -/
theorem C5_gen_item_category_crashes :
    gen_item (some "t") Option.none Option.none Option.none
      (some (CategoryArg.elems [catA, catB])) Option.none Option.none
      Option.none Option.none Option.none = .error rootKwError
    ∧ gen_item (some "t") Option.none Option.none Option.none
      (some (CategoryArg.str "tech")) Option.none Option.none
      Option.none Option.none Option.none = .error rootKwError :=
  ⟨rfl, rfl⟩

/-- Claim C6.  gen_category performs no validation at all: called with the
empty string it raises nothing and returns a category element with empty
text (the model of gen_category is total — the source has no raise
path). -/
theorem C6_gen_category_accepts_empty :
    gen_category "" Option.none =
      Element.mk "category" [] (some (PyVal.str "")) [] :=
  rfl

/-- Claim C7.  gen_rss does not validate its required fields: with title,
link and description all null it raises nothing and returns an rss
element (version="2.0") whose channel is empty; and with only title
present it fails with the key-unpacking ValueError, not a
ValidationError. -/
theorem C7_gen_rss_skips_required_field_checks :
    gen_rss Option.none Option.none Option.none Option.none Option.none
      Option.none Option.none Option.none Option.none Option.none Option.none
      Option.none Option.none Option.none Option.none Option.none Option.none
      Option.none Option.none =
      .ok (Element.mk "rss" [("version", PyVal.str "2.0")] Option.none
        [Element.mk "channel" [] Option.none []])
    ∧ gen_rss (some "T") Option.none Option.none Option.none Option.none
      Option.none Option.none Option.none Option.none Option.none Option.none
      Option.none Option.none Option.none Option.none Option.none Option.none
      Option.none Option.none =
      .error (.valueError "too many values to unpack (expected 2)") :=
  ⟨rfl, rfl⟩

/-- Claim C8.  gen_guid("abc") (isPermaLink defaulting to True) returns an
element whose TAG is the guid value "abc" — the source calls
etree.Element(guid, ...), not etree.Element("guid", ...) — and whose
isPermaLink attribute holds the raw Python bool, not the lowercase string
"true"/"false"; likewise for an explicit False. -/
theorem C8_gen_guid_tag_and_raw_bool :
    gen_guid "abc" true =
      Element.mk "abc" [("isPermaLink", PyVal.bool true)] Option.none []
    ∧ gen_guid "abc" false =
      Element.mk "abc" [("isPermaLink", PyVal.bool false)] Option.none [] :=
  ⟨rfl, rfl⟩

/-- Claim C9.  gen_enclosure(url="http://x", length=1024,
type="audio/mpeg") returns an element tagged enclosure with no text, no
children, and exactly the attributes url="http://x", length="1024" (the
decimal string of the integer), type="audio/mpeg", in that order. -/
theorem C9_gen_enclosure_shape :
    gen_enclosure "http://x" 1024 "audio/mpeg" =
      Element.mk "enclosure"
        [("url", PyVal.str "http://x"), ("length", PyVal.str "1024"),
         ("type", PyVal.str "audio/mpeg")]
        Option.none [] :=
  rfl

/-- First pre-built item fed to gen_rss in claim C10's scenario. -/
def item1 : Element := Element.mk "item" [] (some (PyVal.str "one")) []

/-- Second pre-built item fed to gen_rss in claim C10's scenario. -/
def item2 : Element := Element.mk "item" [] (some (PyVal.str "two")) []

/-- Claim C10.  In the claim's scenario — gen_rss with title, link,
description and items=[item1, item2] — the call raises the key-unpacking
ValueError before the line appending items is ever reached, so item1 and
item2 never become children of channel.  (Only when every scalar is null,
where the claim's scenario cannot arise, does the items extend run: the
second conjunct shows the all-null call returning a channel whose
children are exactly [item1, item2].) -/
theorem C10_gen_rss_items_never_reached :
    gen_rss (some "T") (some "L") (some "D") Option.none Option.none
      Option.none Option.none Option.none Option.none Option.none Option.none
      Option.none Option.none Option.none Option.none Option.none Option.none
      Option.none (some [item1, item2]) =
      .error (.valueError "too many values to unpack (expected 2)")
    ∧ gen_rss Option.none Option.none Option.none Option.none Option.none
      Option.none Option.none Option.none Option.none Option.none Option.none
      Option.none Option.none Option.none Option.none Option.none Option.none
      Option.none (some [item1, item2]) =
      .ok (Element.mk "rss" [("version", PyVal.str "2.0")] Option.none
        [Element.mk "channel" [] Option.none [item1, item2]]) :=
  ⟨rfl, rfl⟩

end MinRss
